import Mathlib

/-
Shallow embedding of the azure-cli error-classification core:
  src/azure-cli-core/azure/cli/core/error.py
  src/azure-cli-core/azure/cli/core/_error_handlers.py

Strings are modelled as `List Char`.  The five registry patterns and the
shared flag pattern are compiled Python regular expressions; they are
embedded as abstract syntax trees over exactly the constructs they use
(literals, character classes, `.`, greedy `*`/`+`/`?`, capture groups,
backreferences, one single-character negative lookbehind) together with a
backtracking matcher implementing Python's leftmost search with greedy,
left-branch-first backtracking.  `re.findall`'s non-overlapping scan with
the zero-width-match advance rule is modelled by `reFindall`.
-/

/-- Conversion from a Lean string literal to the character-list
representation used throughout the development. -/
def chars (s : String) : List Char := s.data

/-- One item of a regular-expression character class: a literal character,
a range, or one of the predefined classes usable inside a class. -/
inductive ClsItem where
  | single (c : Char)
  | crange (lo hi : Char)
  | wordC
  | spaceC
  | digitC
deriving DecidableEq, Repr

/-- A single-character matcher: a literal, the dot, or a (possibly negated)
character class. -/
inductive RAtom where
  | lit (c : Char)
  | anyC
  | cls (neg : Bool) (items : List ClsItem)
deriving DecidableEq, Repr

/-- Regular-expression abstract syntax covering the constructs used by the
six compiled patterns of the source.  Quantifiers apply to single atoms,
which is the only shape the source patterns use. -/
inductive Regex where
  | eps
  | atom (a : RAtom)
  | lits (cs : List Char)
  | cat (r1 r2 : Regex)
  | alt (r1 r2 : Regex)
  | star (a : RAtom)
  | plus (a : RAtom)
  | opt (r : Regex)
  | group (idx : Nat) (r : Regex)
  | backref (idx : Nat)
  | nlb (c : Char)
deriving DecidableEq, Repr

/-- Python `\w` on the ASCII inputs at hand: letters, digits, underscore. -/
def isWordChar (c : Char) : Bool := c.isAlpha || c.isDigit || c = '_'

/-- Python `\s` on the ASCII inputs at hand. -/
def isSpaceChar (c : Char) : Bool :=
  c = ' ' || c = '\t' || c = '\n' || c = '\r' || c = '\x0b' || c = '\x0c'

def clsItemMatch (c : Char) : ClsItem → Bool
  | .single d => c = d
  | .crange lo hi => decide (lo ≤ c) && decide (c ≤ hi)
  | .wordC => isWordChar c
  | .spaceC => isSpaceChar c
  | .digitC => c.isDigit

def atomMatch (a : RAtom) (c : Char) : Bool :=
  match a with
  | .lit d => c = d
  | .anyC => c ≠ '\n'
  | .cls neg items => (items.any (clsItemMatch c)) != neg

/-- Capture store: group index paired with the captured characters; the
most recent capture of a group is listed first. -/
abbrev Caps := List (Nat × List Char)

/-- Greedy Kleene star over a single atom: consume as many matching
characters as possible, backtracking into the continuation `k` from the
longest attempt downwards.  `prev` is the character immediately before the
current position (for the lookbehind). -/
def starGreedy {α} (a : RAtom) :
    Option Char → List Char → Caps →
    (Option Char → List Char → Caps → Option α) → Option α
  | prev, [], caps, k => k prev [] caps
  | prev, c :: rest, caps, k =>
    if atomMatch a c then
      match starGreedy a (some c) rest caps k with
      | some res => some res
      | none => k prev (c :: rest) caps
    else k prev (c :: rest) caps

/-- Match a literal character sequence, returning the updated
previous-character marker and the remaining input. -/
def litsMatch : List Char → Option Char → List Char →
    Option (Option Char × List Char)
  | [], prev, rem => some (prev, rem)
  | _ :: _, _, [] => none
  | l :: ls, _, c :: rest => if c = l then litsMatch ls (some c) rest else none

/-- Backtracking matcher in continuation-passing style.  Alternatives try
the left branch first, quantifiers are greedy, and captures are threaded
through the continuation so that a failed branch leaves no captures —
Python's backtracking semantics on the pattern subset in use. -/
def mMatch {α} : Regex → Option Char → List Char → Caps →
    (Option Char → List Char → Caps → Option α) → Option α
  | .eps, prev, rem, caps, k => k prev rem caps
  | .atom a, _, rem, caps, k =>
    match rem with
    | [] => none
    | c :: rest => if atomMatch a c then k (some c) rest caps else none
  | .lits cs, prev, rem, caps, k =>
    match litsMatch cs prev rem with
    | some (p, r) => k p r caps
    | none => none
  | .cat r1 r2, prev, rem, caps, k =>
    mMatch r1 prev rem caps (fun p r cps => mMatch r2 p r cps k)
  | .alt r1 r2, prev, rem, caps, k =>
    match mMatch r1 prev rem caps k with
    | some res => some res
    | none => mMatch r2 prev rem caps k
  | .star a, prev, rem, caps, k => starGreedy a prev rem caps k
  | .plus a, _, rem, caps, k =>
    match rem with
    | [] => none
    | c :: rest =>
      if atomMatch a c then starGreedy a (some c) rest caps k else none
  | .opt r, prev, rem, caps, k =>
    match mMatch r prev rem caps k with
    | some res => some res
    | none => k prev rem caps
  | .group i r, prev, rem, caps, k =>
    mMatch r prev rem caps
      (fun p rem2 cps =>
        k p rem2 ((i, rem.take (rem.length - rem2.length)) :: cps))
  | .backref i, prev, rem, caps, k =>
    match caps.lookup i with
    | none => none
    | some v =>
      match litsMatch v prev rem with
      | some (p, r) => k p r caps
      | none => none
  | .nlb c, prev, rem, caps, k =>
    if prev = some c then none else k prev rem caps

/-- Result of a successful match: the matched characters and the capture
store (`m.group(i)` data). -/
structure MatchRes where
  matched : List Char
  caps : Caps
deriving DecidableEq, Repr

/-- Python `re`'s leftmost search: attempt a match at the current position
and otherwise advance one character; on success also return the marker and
remaining input after the match so that a non-overlapping scan can
continue. -/
def searchStep (r : Regex) :
    Option Char → List Char → Option (MatchRes × Option Char × List Char)
  | prev, rem =>
    match mMatch r prev rem []
        (fun p rem2 cps =>
          some (⟨rem.take (rem.length - rem2.length), cps⟩, p, rem2)) with
    | some res => some res
    | none =>
      match rem with
      | [] => none
      | c :: rest => searchStep r (some c) rest

/-- `pattern.search(s)`. -/
def reSearch (r : Regex) (s : List Char) : Option MatchRes :=
  (searchStep r none s).map (fun x => x.1)

/-- Fuel-indexed worker for `re.findall`'s non-overlapping scan; after a
zero-width match the scan advances one character, as Python does. -/
def findallAux (r : Regex) : Nat → Option Char → List Char → List MatchRes
  | 0, _, _ => []
  | f + 1, prev, rem =>
    match searchStep r prev rem with
    | none => []
    | some (res, p2, rem2) =>
      if res.matched.isEmpty then
        res :: (match rem2 with
                | [] => []
                | c :: rest => findallAux r f (some c) rest)
      else res :: findallAux r f p2 rem2

/-- `re.findall(pattern, s)` at the level of match records. -/
def reFindall (r : Regex) (s : List Char) : List MatchRes :=
  findallAux r (s.length + 1) none s

/-- `m.group(i)` for a group that participated in the match (all uses in
the source are of this shape). -/
def mgroup (m : MatchRes) (i : Nat) : List Char := (m.caps.lookup i).getD []

/-- Fuel-indexed worker for Python `str.replace` with a non-empty pattern:
replace non-overlapping occurrences left to right. -/
def pyReplaceAux (pat rep : List Char) : Nat → List Char → List Char
  | 0, s => s
  | _ + 1, [] => []
  | f + 1, c :: rest =>
    if pat.isPrefixOf (c :: rest) then
      rep ++ pyReplaceAux pat rep f ((c :: rest).drop pat.length)
    else c :: pyReplaceAux pat rep f rest

/-- Python `s.replace(pat, rep)`: every non-overlapping occurrence, left to
right; with an empty pattern the replacement is interleaved before every
character and appended at the end, as Python does. -/
def pyReplace (s pat rep : List Char) : List Char :=
  match pat with
  | [] => rep ++ (s.map (fun c => c :: rep)).flatten
  | _ :: _ => pyReplaceAux pat rep s.length s

/-- Escape interpretation inside a character class (`\w`, `\s`, `\d` keep
their class meaning; non-letter escapes denote the escaped character; other
letter escapes are outside the supported subset). -/
def clsEsc (e : Char) : Option ClsItem :=
  if e = 'w' then some .wordC
  else if e = 's' then some .spaceC
  else if e = 'd' then some .digitC
  else if e.isAlpha then none
  else some (.single e)

/-- Fuel-indexed parser for the body of a character class, up to the
closing bracket. -/
def parseCls : Nat → List Char → Option (List ClsItem × List Char)
  | 0, _ => none
  | _, [] => none
  | f + 1, c :: rest =>
    if c = ']' then some ([], rest)
    else if c = '\\' then
      match rest with
      | [] => none
      | e :: rest2 =>
        match clsEsc e with
        | none => none
        | some item =>
          match parseCls f rest2 with
          | none => none
          | some (items, r) => some (item :: items, r)
    else
      match rest with
      | '-' :: d :: rest2 =>
        if d = ']' then
          match parseCls f ('-' :: d :: rest2) with
          | none => none
          | some (items, r) => some (.single c :: items, r)
        else if d = '\\' then none
        else
          match parseCls f rest2 with
          | none => none
          | some (items, r) => some (.crange c d :: items, r)
      | _ =>
        match parseCls f rest with
        | none => none
        | some (items, r) => some (.single c :: items, r)

/-- Escape interpretation outside a character class. -/
def topEsc (e : Char) : Option RAtom :=
  if e = 'w' then some (.cls false [.wordC])
  else if e = 's' then some (.cls false [.spaceC])
  else if e = 'd' then some (.cls false [.digitC])
  else if e.isAlpha then none
  else some (.lit e)

/-- Parse one atom of a dynamically compiled pattern. -/
def parseAtom (f : Nat) : List Char → Option (RAtom × List Char)
  | [] => none
  | '\\' :: rest =>
    match rest with
    | [] => none
    | e :: rest2 => (topEsc e).map (fun a => (a, rest2))
  | '[' :: rest =>
    match rest with
    | '^' :: rest2 => (parseCls f rest2).map (fun x => (.cls true x.1, x.2))
    | _ => (parseCls f rest).map (fun x => (.cls false x.1, x.2))
  | '.' :: rest => some (.anyC, rest)
  | c :: rest =>
    if c = '(' || c = ')' || c = '|' || c = '+' || c = '*' || c = '?' ||
       c = '^' || c = '$' || c = ']' then none
    else some (.lit c, rest)

/-- Fuel-indexed parser for the subset of Python regex syntax that the
dynamically compiled allow-list patterns of the CharacterNotAllowed
handler use: atoms with optional greedy quantifiers, concatenated.
Patterns outside the subset yield `none`, modelling a compilation the
embedding does not cover. -/
def parseRe : Nat → List Char → Option Regex
  | 0, _ => none
  | _, [] => some .eps
  | f + 1, cs =>
    match parseAtom f cs with
    | none => none
    | some (a, rest) =>
      match rest with
      | '+' :: rest2 => (parseRe f rest2).map (fun r => .cat (.plus a) r)
      | '*' :: rest2 => (parseRe f rest2).map (fun r => .cat (.star a) r)
      | '?' :: rest2 => (parseRe f rest2).map (fun r => .cat (.opt (.atom a)) r)
      | _ => (parseRe f rest).map (fun r => .cat (.atom a) r)

/-- `re.compile` for the dynamic allow-list patterns (supported subset). -/
def parseRegex (cs : List Char) : Option Regex := parseRe (cs.length + 1) cs

/-- Concatenation of a pattern piece list, used to write down the compiled
registry patterns. -/
def rcat (rs : List Regex) : Regex := rs.foldr Regex.cat .eps

/-- The `\s` atom. -/
def spaceA : RAtom := .cls false [.spaceC]

/-- Compiled `r'the following arguments are required'`. -/
def argumentRequiredPattern : Regex :=
  .lits (chars "the following arguments are required")

/-- Compiled
`r"[Pp]arameter\s+\'(?P<parameter>.*)\'\s+.*pattern[:\s]+\'(?P<regex>.*)\'"`;
group 1 is `parameter`, group 2 is `regex`. -/
def characterNotAllowedPattern : Regex :=
  rcat [ .atom (.cls false [.single 'P', .single 'p']),
         .lits (chars "arameter"),
         .plus spaceA,
         .atom (.lit '\x27'),
         .group 1 (.star .anyC),
         .atom (.lit '\x27'),
         .plus spaceA,
         .star .anyC,
         .lits (chars "pattern"),
         .plus (.cls false [.single ':', .spaceC]),
         .atom (.lit '\x27'),
         .group 2 (.star .anyC),
         .atom (.lit '\x27') ]

/-- Compiled
`r'([\'\"])(?P<subcommand>.*)\1 is not in the \1(?P<command_group>az\s.*)\1 command group'`;
group 1 is the quote, group 2 `subcommand`, group 3 `command_group`. -/
def commandNotFoundPattern : Regex :=
  rcat [ .group 1 (.atom (.cls false [.single '\x27', .single '"'])),
         .group 2 (.star .anyC),
         .backref 1,
         .lits (chars " is not in the "),
         .backref 1,
         .group 3 (rcat [.lits (chars "az"), .atom spaceA, .star .anyC]),
         .backref 1,
         .lits (chars " command group") ]

/-- Compiled
`r"(?P<azure_resource>[A-Za-z\s]+)\s+\'(?P<invalid_resource_name>.*)\'\s+(?:not found|could not be found)"`;
group 1 is `azure_resource`, group 2 `invalid_resource_name`. -/
def resourceNotFoundPattern : Regex :=
  rcat [ .group 1 (.plus (.cls false [.crange 'A' 'Z', .crange 'a' 'z', .spaceC])),
         .plus spaceA,
         .atom (.lit '\x27'),
         .group 2 (.star .anyC),
         .atom (.lit '\x27'),
         .plus spaceA,
         .alt (.lits (chars "not found")) (.lits (chars "could not be found")) ]

/-- Compiled `r'expected (at least)?\s?one argument'`. -/
def valueRequiredPattern : Regex :=
  rcat [ .lits (chars "expected "),
         .opt (.group 1 (.lits (chars "at least"))),
         .opt (.atom spaceA),
         .lits (chars "one argument") ]

/-- Compiled `ARGUMENT_PATTERN = r'(?<!/)--(?P<argument>[a-z][A-Za-z-]*)'`;
group 1 is `argument`. -/
def ARGUMENT_PATTERN : Regex :=
  rcat [ .nlb '/',
         .lits (chars "--"),
         .group 1 (.cat (.atom (.cls false [.crange 'a' 'z']))
                        (.star (.cls false [.crange 'A' 'Z', .crange 'a' 'z',
                                            .single '-']))) ]

/-- `CorrectionType` from `_error_handlers.py`. -/
inductive CorrectionType where
  | InvalidArgument
deriving DecidableEq, Repr

/-- `SuggestedErrorCorrection` value object from `_error_handlers.py`. -/
structure SuggestedErrorCorrection where
  suggestion : List Char
  correction_type : CorrectionType
  parameter : Option (List Char)
deriving DecidableEq, Repr

/-- `SuggestedErrorCorrection.VALUE_TYPE_TO_PARAMETER_NAME`. -/
def VALUE_TYPE_TO_PARAMETER_NAME : List (List Char × List Char) :=
  [(chars "resource_group_name", chars "--resource-group")]

/-- The `SuggestedErrorCorrection` constructor:
`self.parameter = self.VALUE_TYPE_TO_PARAMETER_NAME.get(parameter) or parameter`
(the `or` falls back to the raw name when the lookup misses or maps to a
falsy value). -/
def mkSuggestedErrorCorrection (suggestion : List Char)
    (correction_type : CorrectionType) (parameter : Option (List Char)) :
    SuggestedErrorCorrection :=
  { suggestion := suggestion
    correction_type := correction_type
    parameter :=
      match parameter with
      | none => none
      | some p =>
        match VALUE_TYPE_TO_PARAMETER_NAME.lookup p with
        | some v => if v.isEmpty then some p else some v
        | none => some p }

/-- `_handle_resource_not_found_error`: group 2 is
`invalid_resource_name`. -/
def handle_resource_not_found (m : MatchRes) : List Char :=
  mgroup m 2 ++ chars " does not exist"

/-- `_handle_command_not_found_error`: group 2 is `subcommand`, group 3 is
`command_group`. -/
def handle_command_not_found (m : MatchRes) : List Char :=
  mgroup m 3 ++ ' ' :: mgroup m 2

/-- First-occurrence deduplication, modelling `set(c for c in s)`.  Python
iterates a set of single-character strings in an implementation-dependent
order; only the membership (each distinct character exactly once) is
specified, and every claim checked below exercises a singleton set, for
which the order is immaterial. -/
def dedupChars (s : List Char) : List Char :=
  s.foldl (fun acc c => if c ∈ acc then acc else acc ++ [c]) []

/-- The core of `_handle_character_not_allowed_error` after the captured
allow-list regex has been compiled: find the valid substrings, delete them
to expose the distinct invalid characters, and delete those characters
from the original value to build the suggestion. -/
def handleCNACore (pattern : Regex) (parameter invalid_value : List Char) :
    List Char × SuggestedErrorCorrection :=
  let valid_substrings := (reFindall pattern invalid_value).map (fun m => m.matched)
  let invalid_character_string :=
    valid_substrings.foldl (fun acc vs => pyReplace acc vs []) invalid_value
  let invalid_character_set := dedupChars invalid_character_string
  let valid_value :=
    invalid_character_set.foldl (fun acc c => pyReplace acc [c] []) invalid_value
  (invalid_character_set,
   mkSuggestedErrorCorrection valid_value .InvalidArgument (some parameter))

/-- The regex-string fixup of `_handle_character_not_allowed_error`:
`regex.replace(r'\\w', r'\\\w')`, then strip a leading `^` and a trailing
`$`. -/
def fixupRegexStr (regexStr : List Char) : List Char :=
  let r := pyReplace regexStr (chars "\\\\w") (chars "\\\\\\w")
  let r := if r.head? = some '^' then r.drop 1 else r
  let r := if r.getLast? = some '$' then r.dropLast else r
  r

/-- `_handle_character_not_allowed_error` on the captures (group 1
`parameter`, group 2 `regex`) and the exception's `_invalid_value`
(defaulted to the empty string); `none` models a captured pattern outside
the compiled subset. -/
def handle_character_not_allowed (parameter regexStr invalid_value : List Char) :
    Option (List Char × SuggestedErrorCorrection) :=
  (parseRegex (fixupRegexStr regexStr)).map
    (fun p => handleCNACore p parameter invalid_value)

/-- The buffer loop of `_handle_argument_required_error`: first extracted
flag bare, each later one prefixed with `" and "`. -/
def joinBufferSrc (arguments : List (List Char)) : List Char :=
  ((arguments.enum.map
      (fun ia => if ia.1 = 0 then ia.2 else chars " and " ++ ia.2)).flatten)

/-- `_handle_argument_required_error` applied to a string message. -/
def handle_argument_required (error_msg : List Char) : List Char :=
  joinBufferSrc ((reFindall ARGUMENT_PATTERN error_msg).map (fun m => mgroup m 1))

/-- `_handle_value_required_error` applied to a string message: the full
text of the first flag match, or `None`. -/
def handle_value_required (error_msg : List Char) : Option (List Char) :=
  (reSearch ARGUMENT_PATTERN error_msg).map (fun m => m.matched)

/-- `AzCliErrorType` member identities. -/
inductive AzCliErrorType where
  | ArgumentRequired
  | CharacterNotAllowed
  | CommandNotFound
  | ResourceNotFound
  | ValueRequired
deriving DecidableEq, Repr

/-- The `error_type` display label of each registry member. -/
def error_type : AzCliErrorType → List Char
  | .ArgumentRequired => chars "Argument required"
  | .CharacterNotAllowed => chars "Character not allowed"
  | .CommandNotFound => chars "Command not found"
  | .ResourceNotFound => chars "Resource not found"
  | .ValueRequired => chars "Value Required"

/-- The compiled pattern of each registry member. -/
def patternOf : AzCliErrorType → Regex
  | .ArgumentRequired => argumentRequiredPattern
  | .CharacterNotAllowed => characterNotAllowedPattern
  | .CommandNotFound => commandNotFoundPattern
  | .ResourceNotFound => resourceNotFoundPattern
  | .ValueRequired => valueRequiredPattern

/-- Exception-like input: the optional `message` attribute, the `str(...)`
rendering, the positional `args`, and the optional `_invalid_value`
metadata read by the CharacterNotAllowed handler. -/
structure ExcObj where
  messageAttr : Option (List Char)
  strRepr : List Char
  args : List (List Char)
  invalidValue : Option (List Char)
deriving DecidableEq, Repr

/-- The orchestrator's input: a string, an exception-like object, or a
value of any other type (carrying its type name). -/
inductive ErrInput where
  | str (s : List Char)
  | exc (e : ExcObj)
  | other (typeName : List Char)
deriving DecidableEq, Repr

/-- Exceptions the orchestrator can raise or propagate: the `TypeError`
of `_assert_parameter_is_of_correct_type`, the `TypeError` raised by the
`re` module when a handler passes it a non-string, and a dynamic pattern
outside the compiled subset. -/
inductive PyError where
  | typeError (msg : List Char)
  | reTypeError
  | reCompileError
deriving DecidableEq, Repr

/-- A handler's returned value as seen by the orchestrator's walrus test:
`None`, a string, or a two-element tuple. -/
inductive HandlerResult where
  | noneR
  | msgR (s : List Char)
  | pairR (s : List Char) (fix : SuggestedErrorCorrection)
deriving DecidableEq, Repr

/-- Python truthiness of a handler result: `None` and the empty string are
falsy; a two-element tuple is truthy whatever it contains. -/
def truthy : HandlerResult → Bool
  | .noneR => false
  | .msgR s => !s.isEmpty
  | .pairR _ _ => true

/-- `error_handler(match, error)` for each registry member.  The
ArgumentRequired and ValueRequired handlers pass the raw error to
`re.findall`/`pattern.search`, which raises `TypeError` when the error is
an exception object rather than a string; the CharacterNotAllowed handler
reads `_invalid_value` off the raw error with `getattr(..., '')`. -/
def runHandler (k : AzCliErrorType) (m : MatchRes) (error : ErrInput) :
    Except PyError HandlerResult :=
  match k with
  | .ResourceNotFound => .ok (.msgR (handle_resource_not_found m))
  | .CommandNotFound => .ok (.msgR (handle_command_not_found m))
  | .CharacterNotAllowed =>
    let invalid_value :=
      match error with
      | .exc e => e.invalidValue.getD []
      | _ => []
    match handle_character_not_allowed (mgroup m 1) (mgroup m 2) invalid_value with
    | some (msg, fix) => .ok (.pairR msg fix)
    | none => .error .reCompileError
  | .ArgumentRequired =>
    match error with
    | .str s => .ok (.msgR (handle_argument_required s))
    | _ => .error .reTypeError
  | .ValueRequired =>
    match error with
    | .str s =>
      .ok (match handle_value_required s with
           | some t => .msgR t
           | none => .noneR)
    | _ => .error .reTypeError

/-- The registry in its construction order — the insertion order of the
`_error_handlers` dict in `AzCliErrorHandler.__init__`. -/
def registryOrder : List AzCliErrorType :=
  [.ResourceNotFound, .CharacterNotAllowed, .CommandNotFound,
   .ArgumentRequired, .ValueRequired]

/-- The dispatch loop of `AzCliErrorHandler.__call__`: scan the kinds in
order; on a pattern match run the handler; `break` only when the handler
result is truthy, otherwise keep scanning; a handler exception
propagates. -/
def scan (error : ErrInput) (message : List Char) :
    List AzCliErrorType →
    Except PyError (Option (AzCliErrorType × MatchRes × HandlerResult))
  | [] => .ok none
  | k :: rest =>
    match reSearch (patternOf k) message with
    | none => scan error message rest
    | some m =>
      match runHandler k m error with
      | .error e => .error e
      | .ok r => if truthy r then .ok (some (k, m, r)) else scan error message rest

/-- The kinds whose patterns the loop evaluates, in order: every iteration
performs `cli_error_type.pattern.search(message)`; the loop body ends the
scan only on a truthy handler result or a raised exception. -/
def scanTried (error : ErrInput) (message : List Char) :
    List AzCliErrorType → List AzCliErrorType
  | [] => []
  | k :: rest =>
    k :: (match reSearch (patternOf k) message with
          | none => scanTried error message rest
          | some m =>
            match runHandler k m error with
            | .error _ => []
            | .ok r => if truthy r then [] else scanTried error message rest)

/-- Splitting a truthy handler result into the rewritten message and the
optional suggestion (`message, suggested_fix = result` for a pair,
`message = result` for a string). -/
def resultParts : HandlerResult → List Char × Option SuggestedErrorCorrection
  | .noneR => ([], none)
  | .msgR s => (s, none)
  | .pairR s fix => (s, some fix)

/-- The `AzCliError` record stored as the handler's last error. -/
structure AzCliErrorRec where
  message : List Char
  overridden_message : List Char
  suggested_fix : Option SuggestedErrorCorrection
  cli_error_type : AzCliErrorType
  metadata : MatchRes
deriving DecidableEq, Repr

/-- The orchestrator's `_last_error` slot. -/
abbrev HandlerState := Option AzCliErrorRec

/-- `self._last_error = None` in `AzCliErrorHandler.__init__`. -/
def initState : HandlerState := none

/-- `AzCliErrorHandler.get_last_error`. -/
def get_last_error (st : HandlerState) : HandlerState := st

/-- `ERROR_MSG_FMT_STR.format(error_type=label, msg=msg)` with colorama's
fixed codes: bright red label, then `": "`, the message, and a reset. -/
def ERROR_MSG_FMT (label msg : List Char) : List Char :=
  chars "\x1b[1m\x1b[31m" ++ label ++ chars "\x1b[22m" ++ chars ": " ++
    msg ++ chars "\x1b[0m"

/-- The TypeError text of `_assert_parameter_is_of_correct_type` for the
`(str, Exception)` tuple used by the orchestrator. -/
def typeAssertMsg (typeName : List Char) : List Char :=
  chars "expected error to be str or Exception, got " ++ typeName

/-- `message = str(getattr(error, 'message', error))`. -/
def extractMessage : ErrInput → List Char
  | .str s => s
  | .exc e => e.messageAttr.getD e.strRepr
  | .other _ => []

/-- `AzCliErrorHandler.__call__`: validate the input type, extract the
message, scan the registry, and on a truthy handler result format the
final message, rewrite the input (a new string, or in-place mutation of
the exception's `message` and `args`) and record the `AzCliError`;
otherwise return the input untouched and leave the state alone.  The
returned pair is (raised-or-returned error, `_last_error` slot after the
call). -/
def classify (st : HandlerState) (input : ErrInput) :
    Except PyError ErrInput × HandlerState :=
  match input with
  | .other t => (.error (.typeError (typeAssertMsg t)), st)
  | _ =>
    let message := extractMessage input
    match scan input message registryOrder with
    | .error e => (.error e, st)
    | .ok none => (.ok input, st)
    | .ok (some (k, m, r)) =>
      let parts := resultParts r
      let formatted := ERROR_MSG_FMT (error_type k) parts.1
      let output :=
        match input with
        | .str _ => ErrInput.str formatted
        | .exc e => ErrInput.exc
            { e with messageAttr := some formatted,
                     args := formatted :: e.args.drop 1 }
        | .other t => ErrInput.other t
      (.ok output,
       some { message := formatted
              overridden_message := message
              suggested_fix := parts.2
              cli_error_type := k
              metadata := m })

/-- The exception message of the module's own smoke test (`__main__`). -/
def mainExMsg : List Char :=
  chars "validation error: Parameter \x27resource_group_name\x27 must conform to the following pattern: \x27^[-\\w\\._\\(\\)]+$\x27."

/-- The smoke-test exception object: `_invalid_value = 'sampleUX!!group'`. -/
def mainEx : ExcObj :=
  { messageAttr := none, strRepr := mainExMsg, args := [mainExMsg],
    invalidValue := some (chars "sampleUX!!group") }

/-- The CharacterNotAllowed match on the smoke-test exception message. -/
def cnaM0 : MatchRes :=
  (reSearch characterNotAllowedPattern mainExMsg).getD ⟨[], []⟩

/-- The suggestion produced for the smoke-test exception. -/
def sampleFix : SuggestedErrorCorrection :=
  { suggestion := chars "sampleUXgroup", correction_type := .InvalidArgument,
    parameter := some (chars "--resource-group") }

/-- Smoke-test string inputs from the module's `__main__` block. -/
def smoke1 : List Char :=
  chars "Resource group \x27newsampleUXgroup\x27 could not be found."

def smoke2 : List Char :=
  chars "az storage: \"create\" is not in the \"az storage\" command group"

def smoke3 : List Char :=
  chars "az storage account create: error: the following arguments are required: --resource-group/-g, --name/-n"

def smoke4 : List Char :=
  chars "az storage container create: error: argument --connection-string: expected one argument"

def smoke5 : List Char :=
  chars "az group delete: error: the following arguments are required: --name/-n/--resource-group/-g"

def smoke6 : List Char :=
  chars "az vm nic show: error: the following arguments are required: --vm-name, --nic"

/-- The ArgumentRequired match on the third smoke-test message. -/
def arM3 : MatchRes := (reSearch argumentRequiredPattern smoke3).getD ⟨[], []⟩

/-- A message matching the ArgumentRequired pattern but containing no flag
token, so its handler returns the empty (falsy) string. -/
def c3Msg : List Char := chars "the following arguments are required."

/-- The ArgumentRequired match on `c3Msg`. -/
def arC3M : MatchRes := (reSearch argumentRequiredPattern c3Msg).getD ⟨[], []⟩

/-- A message matching both the ArgumentRequired and the ResourceNotFound
patterns, with both handlers truthy, so the registry order decides. -/
def c4Msg : List Char :=
  chars "the following arguments are required: --name; resource \x27x\x27 not found"

/-- The order in which the specification's canonical table lists the five
kinds (alphabetical), as opposed to the construction order of the handler
dict. -/
def canonicalTableOrder : List AzCliErrorType :=
  [.ArgumentRequired, .CharacterNotAllowed, .CommandNotFound,
   .ResourceNotFound, .ValueRequired]

/-- A rewritable input whose quoted resource name reintroduces the
ArgumentRequired trigger text and a flag token. -/
def c8Input : List Char :=
  chars "Resource \x27the following arguments are required: --name\x27 not found"

/-- The formatted output that the first classification of `c8Input`
produces. -/
def c8Formatted : List Char :=
  ERROR_MSG_FMT (error_type .ResourceNotFound)
    (chars "the following arguments are required: --name does not exist")

/-- A CharacterNotAllowed-shaped message for an exception carrying no
`_invalid_value`. -/
def c10Msg : List Char :=
  chars "Parameter \x27p\x27 must conform to the following pattern: \x27\\w+\x27."

/-- An exception-like input lacking the `_invalid_value` attribute. -/
def c10Ex : ExcObj :=
  { messageAttr := none, strRepr := c10Msg, args := [c10Msg], invalidValue := none }

/-- The CharacterNotAllowed match on `c10Msg`. -/
def c10M : MatchRes := (reSearch characterNotAllowedPattern c10Msg).getD ⟨[], []⟩

/-- The compiled allow-list pattern captured from `c10Msg`. -/
def c10P : Regex := (parseRegex (fixupRegexStr (mgroup c10M 2))).getD .eps

/-- The natural-language join described by the specification: first token
bare, each subsequent token prefixed with `" and "`. -/
def joinAndSpec : List (List Char) → List Char
  | [] => []
  | t :: rest => t ++ (rest.map (fun u => chars " and " ++ u)).flatten

/-- The string produced by a first classification of a string input (the
formatted message when the classification rewrites, the empty list
otherwise). -/
def firstPassStr (s : List Char) : List Char :=
  match (classify initState (.str s)).1 with
  | .ok (.str f) => f
  | _ => []

/-- On empty input the matcher can only invoke its continuation at the
empty remainder: no atom can consume a character. -/
theorem mMatch_nil {α} (r : Regex) :
    ∀ (prev : Option Char) (caps : Caps)
      (k : Option Char → List Char → Caps → Option α) (res : α),
      mMatch r prev [] caps k = some res →
      ∃ p2 cps, k p2 [] cps = some res := by
  induction r with
  | eps => intro prev caps k res h; exact ⟨prev, caps, h⟩
  | atom a => intro prev caps k res h; simp [mMatch] at h
  | lits cs =>
    intro prev caps k res h
    cases cs with
    | nil => exact ⟨prev, caps, h⟩
    | cons c cs2 => simp [mMatch, litsMatch] at h
  | cat r1 r2 ih1 ih2 =>
    intro prev caps k res h
    obtain ⟨p2, cps, h2⟩ := ih1 _ _ _ _ h
    exact ih2 _ _ _ _ h2
  | alt r1 r2 ih1 ih2 =>
    intro prev caps k res h
    simp only [mMatch] at h
    cases h1 : mMatch r1 prev [] caps k with
    | some res1 => rw [h1] at h; cases h; exact ih1 _ _ _ _ h1
    | none => rw [h1] at h; exact ih2 _ _ _ _ h
  | star a => intro prev caps k res h; exact ⟨prev, caps, h⟩
  | plus a => intro prev caps k res h; simp [mMatch] at h
  | opt r ih =>
    intro prev caps k res h
    simp only [mMatch] at h
    cases h1 : mMatch r prev [] caps k with
    | some res1 => rw [h1] at h; cases h; exact ih _ _ _ _ h1
    | none => rw [h1] at h; exact ⟨prev, caps, h⟩
  | group i r ih =>
    intro prev caps k res h
    obtain ⟨p2, cps, h2⟩ := ih _ _ _ _ h
    simp only [List.take_nil] at h2
    exact ⟨p2, (i, []) :: cps, h2⟩
  | backref i =>
    intro prev caps k res h
    simp only [mMatch] at h
    cases hl : caps.lookup i with
    | none => rw [hl] at h; cases h
    | some v =>
      rw [hl] at h
      cases v with
      | nil => exact ⟨prev, caps, h⟩
      | cons c v2 => simp [litsMatch] at h
  | nlb c =>
    intro prev caps k res h
    simp only [mMatch] at h
    split at h
    · cases h
    · exact ⟨prev, caps, h⟩

/-- A successful search over the empty input matched the empty string and
left the empty remainder. -/
theorem searchStep_nil {r : Regex} {prev : Option Char}
    {out : MatchRes × Option Char × List Char}
    (h : searchStep r prev [] = some out) :
    out.1.matched = [] ∧ out.2.2 = [] := by
  simp only [searchStep] at h
  split at h
  next out1 hm =>
    cases h
    obtain ⟨p2, cps, h2⟩ := mMatch_nil r _ _ _ _ hm
    cases h2
    exact ⟨rfl, rfl⟩
  next hm => simp at h

/-- `re.findall` over the empty string returns either nothing or exactly
one empty match. -/
theorem reFindall_nil_shape (p : Regex) :
    reFindall p [] = [] ∨ ∃ cps, reFindall p [] = [⟨[], cps⟩] := by
  unfold reFindall
  cases hs : searchStep p none [] with
  | none => left; simp [findallAux, hs]
  | some out =>
    obtain ⟨res, p2, rem2⟩ := out
    obtain ⟨hm, hr⟩ := searchStep_nil hs
    simp only at hm hr
    subst hr
    obtain ⟨mt, cps⟩ := res
    simp only at hm
    subst hm
    right
    exact ⟨cps, by simp [findallAux, hs]⟩

/-- The CharacterNotAllowed core algorithm on the empty invalid value:
whatever the compiled allow-list pattern, both the invalid-character
message and the suggestion are empty. -/
theorem handleCNACore_empty (p : Regex) (param : List Char) :
    handleCNACore p param [] =
      ([], mkSuggestedErrorCorrection [] .InvalidArgument (some param)) := by
  unfold handleCNACore
  rcases reFindall_nil_shape p with h | ⟨cps, h⟩ <;> rw [h] <;> rfl

/-- Every entry enumerated from a positive start index receives the
`" and "` prefix in the buffer loop. -/
theorem enumFrom_all_and (l : List (List Char)) :
    ∀ n : Nat, n ≠ 0 →
      (List.enumFrom n l).map
          (fun ia => if ia.1 = 0 then ia.2 else chars " and " ++ ia.2) =
        l.map (fun u => chars " and " ++ u) := by
  induction l with
  | nil => intro n _; rfl
  | cons a as ih =>
    intro n hn
    simp only [List.enumFrom, List.map, if_neg hn]
    rw [ih (n + 1) (Nat.succ_ne_zero n)]

/-- The indexed buffer loop of the ArgumentRequired handler produces
exactly the natural-language join the specification describes. -/
theorem joinBufferSrc_eq_joinAndSpec (l : List (List Char)) :
    joinBufferSrc l = joinAndSpec l := by
  cases l with
  | nil => rfl
  | cons t rest =>
    simp only [joinBufferSrc, joinAndSpec, List.enum, List.enumFrom,
      List.map, if_pos rfl, if_true, List.flatten]
    rw [enumFrom_all_and rest 1 (Nat.one_ne_zero)]

/-- Characterization of a successful scan: the selected kind is the first
one in the given order whose pattern matches and whose handler returns a
truthy result; every kind listed before it either failed the pattern
search or had its handler return a falsy value. -/
theorem scan_success_characterization (error : ErrInput) (message : List Char) :
    ∀ (order : List AzCliErrorType) (k : AzCliErrorType) (m : MatchRes)
      (r : HandlerResult),
      scan error message order = .ok (some (k, m, r)) →
      reSearch (patternOf k) message = some m ∧
      runHandler k m error = .ok r ∧ truthy r = true ∧
      ∃ pre post, order = pre ++ k :: post ∧
        ∀ k2 ∈ pre, reSearch (patternOf k2) message = none ∨
          ∃ m2 r2, reSearch (patternOf k2) message = some m2 ∧
            runHandler k2 m2 error = .ok r2 ∧ truthy r2 = false := by
  intro order
  induction order with
  | nil => intro k m r h; simp [scan] at h
  | cons k1 rest ih =>
    intro k m r h
    simp only [scan] at h
    split at h
    next hs =>
      obtain ⟨h1, h2, h3, pre, post, heq, hall⟩ := ih k m r h
      refine ⟨h1, h2, h3, k1 :: pre, post, by rw [heq]; rfl, ?_⟩
      intro k2 hk2
      rcases List.mem_cons.mp hk2 with rfl | hk2
      · exact Or.inl hs
      · exact hall k2 hk2
    next m1 hs =>
      split at h
      next e hr => cases h
      next r1 hr =>
        by_cases ht : truthy r1 = true
        · rw [if_pos ht] at h
          simp only [Except.ok.injEq, Option.some.injEq, Prod.mk.injEq] at h
          obtain ⟨rfl, rfl, rfl⟩ := h
          exact ⟨hs, hr, ht, [], rest, rfl, by simp⟩
        · rw [if_neg ht] at h
          obtain ⟨h1, h2, h3, pre, post, heq, hall⟩ := ih k m r h
          refine ⟨h1, h2, h3, k1 :: pre, post, by rw [heq]; rfl, ?_⟩
          intro k2 hk2
          rcases List.mem_cons.mp hk2 with rfl | hk2
          · exact Or.inr ⟨m1, r1, hs, hr, by simpa using ht⟩
          · exact hall k2 hk2

/-- C1: for every exception-like input carrying
`_invalid_value = "sampleUX!!group"` whose message matches the
CharacterNotAllowed pattern with captured parameter `resource_group_name`
and captured allow-list regex `^[-\w\._\(\)]+$`, the handler returns the
single distinct invalid character `"!"` together with a suggestion whose
value is `"sampleUXgroup"`, whose kind is InvalidArgument and whose
parameter is normalized to `--resource-group`. -/
theorem C1_character_not_allowed_handler (e : ExcObj) (m : MatchRes)
    (hiv : e.invalidValue = some (chars "sampleUX!!group"))
    (hmatch : reSearch characterNotAllowedPattern (extractMessage (.exc e)) = some m)
    (hp : mgroup m 1 = chars "resource_group_name")
    (hr : mgroup m 2 = chars "^[-\\w\\._\\(\\)]+$") :
    runHandler .CharacterNotAllowed m (.exc e) = .ok (.pairR (chars "!") sampleFix) := by
  simp only [runHandler, hp, hr, hiv, Option.getD_some]
  rfl

/-- Witness for C1 at the module's own smoke-test exception. -/
theorem C1_witness :
    runHandler .CharacterNotAllowed cnaM0 (.exc mainEx) =
      .ok (.pairR (chars "!") sampleFix) :=
  C1_character_not_allowed_handler mainEx cnaM0 rfl rfl rfl rfl

/-- C2: a string input matching none of the five registry patterns is
returned unchanged and the last-error slot is not updated. -/
theorem C2_unmatched_string_unchanged (st : HandlerState) (s : List Char)
    (h1 : reSearch resourceNotFoundPattern s = none)
    (h2 : reSearch characterNotAllowedPattern s = none)
    (h3 : reSearch commandNotFoundPattern s = none)
    (h4 : reSearch argumentRequiredPattern s = none)
    (h5 : reSearch valueRequiredPattern s = none) :
    classify st (.str s) = (.ok (.str s), st) := by
  have hscan : scan (.str s) s registryOrder = .ok none := by
    simp [scan, registryOrder, patternOf, h1, h2, h3, h4, h5]
  simp [classify, extractMessage, hscan]

/-- Witness for C2 at a plain unmatched message. -/
theorem C2_witness :
    classify initState (.str (chars "hello world")) =
      (.ok (.str (chars "hello world")), initState) :=
  C2_unmatched_string_unchanged initState (chars "hello world") rfl rfl rfl rfl rfl

/-- C3 counterexample: on a message whose first pattern match
(ArgumentRequired) has a falsy handler result, the loop keeps scanning —
the ValueRequired pattern is still tried afterwards — refuting the claim
that a first pattern match always ends the scan. -/
theorem C3_counterexample :
    reSearch (patternOf .ArgumentRequired) c3Msg = some arC3M ∧
    runHandler .ArgumentRequired arC3M (.str c3Msg) = .ok (.msgR []) ∧
    truthy (.msgR []) = false ∧
    scanTried (.str c3Msg) c3Msg registryOrder =
      [.ResourceNotFound, .CharacterNotAllowed, .CommandNotFound,
       .ArgumentRequired, .ValueRequired] :=
  ⟨rfl, rfl, rfl, rfl⟩

/-- C3 amended: dispatch stops at the first kind whose pattern matches and
whose handler returns a truthy result; when the pattern matches but the
handler result is falsy, the scan continues with the remaining kinds. -/
theorem C3_amended_falsy_continues (error : ErrInput) (message : List Char)
    (k : AzCliErrorType) (rest : List AzCliErrorType) (m : MatchRes)
    (r : HandlerResult)
    (hm : reSearch (patternOf k) message = some m)
    (hh : runHandler k m error = .ok r) :
    (truthy r = false → scan error message (k :: rest) = scan error message rest) ∧
    (truthy r = true → scan error message (k :: rest) = .ok (some (k, m, r))) := by
  constructor <;> intro ht <;> simp [scan, hm, hh, ht]

/-- Witness for the amended C3: the falsy ArgumentRequired result lets the
scan fall through to the kinds listed after it. -/
theorem C3_amended_witness :
    scan (.str c3Msg) c3Msg (.ArgumentRequired :: [.ValueRequired]) =
      scan (.str c3Msg) c3Msg [.ValueRequired] :=
  (C3_amended_falsy_continues (.str c3Msg) c3Msg .ArgumentRequired
      [.ValueRequired] arC3M (.msgR []) rfl rfl).1 rfl

/-- C4 counterexample: a message matching both the ArgumentRequired and
the ResourceNotFound patterns with truthy handlers is classified as
ResourceNotFound by the construction order of the handler dict, not as
ArgumentRequired as the canonical table order would dictate. -/
theorem C4_counterexample :
    (scan (.str c4Msg) c4Msg registryOrder).map (Option.map Prod.fst) =
      .ok (some AzCliErrorType.ResourceNotFound) ∧
    (scan (.str c4Msg) c4Msg canonicalTableOrder).map (Option.map Prod.fst) =
      .ok (some AzCliErrorType.ArgumentRequired) ∧
    AzCliErrorType.ResourceNotFound ≠ AzCliErrorType.ArgumentRequired :=
  ⟨rfl, rfl, by decide⟩

/-- C4 amended: the kind selected is the first in the fixed registry order
ResourceNotFound, CharacterNotAllowed, CommandNotFound, ArgumentRequired,
ValueRequired whose pattern matches and whose handler result is truthy;
every kind listed before the selected one failed its pattern search or
returned a falsy result. -/
theorem C4_amended_first_match_in_registry_order (error : ErrInput)
    (message : List Char) (k : AzCliErrorType) (m : MatchRes) (r : HandlerResult)
    (h : scan error message registryOrder = .ok (some (k, m, r))) :
    reSearch (patternOf k) message = some m ∧
    runHandler k m error = .ok r ∧ truthy r = true ∧
    ∃ pre post, registryOrder = pre ++ k :: post ∧
      ∀ k2 ∈ pre, reSearch (patternOf k2) message = none ∨
        ∃ m2 r2, reSearch (patternOf k2) message = some m2 ∧
          runHandler k2 m2 error = .ok r2 ∧ truthy r2 = false :=
  scan_success_characterization error message registryOrder k m r h

/-- Witness for the amended C4 at the third smoke-test message, where the
selected kind is ArgumentRequired. -/
theorem C4_amended_witness :
    reSearch (patternOf .ArgumentRequired) smoke3 = some arM3 ∧
    runHandler .ArgumentRequired arM3 (.str smoke3) =
      .ok (.msgR (chars "resource-group and name")) ∧
    truthy (.msgR (chars "resource-group and name")) = true :=
  ⟨(C4_amended_first_match_in_registry_order (.str smoke3) smoke3
      .ArgumentRequired arM3 (.msgR (chars "resource-group and name")) rfl).1,
   (C4_amended_first_match_in_registry_order (.str smoke3) smoke3
      .ArgumentRequired arM3 (.msgR (chars "resource-group and name")) rfl).2.1,
   (C4_amended_first_match_in_registry_order (.str smoke3) smoke3
      .ArgumentRequired arM3 (.msgR (chars "resource-group and name")) rfl).2.2.1⟩

/-- C6: an input that is neither a string nor exception-like raises the
TypeError of the type assertion immediately and leaves the last-error
slot untouched. -/
theorem C6_type_assert (st : HandlerState) (t : List Char) :
    classify st (.other t) = (.error (.typeError (typeAssertMsg t)), st) := rfl

/-- C9: the ArgumentRequired handler joins all flag tokens extracted by
the shared flag pattern, first token bare and each subsequent one prefixed
with `" and "`. -/
theorem C9_argument_required_join (msg : List Char) (m : MatchRes)
    (hm : reSearch argumentRequiredPattern msg = some m) :
    runHandler .ArgumentRequired m (.str msg) =
      .ok (.msgR (joinAndSpec
        ((reFindall ARGUMENT_PATTERN msg).map (fun x => mgroup x 1)))) := by
  simp only [runHandler, handle_argument_required, joinBufferSrc_eq_joinAndSpec]

/-- Witness for C9: the canonical two-flag message yields
`"resource-group and name"` with the slash-joined short forms excluded. -/
theorem C9_witness :
    runHandler .ArgumentRequired arM3 (.str smoke3) =
      .ok (.msgR (chars "resource-group and name")) :=
  C9_argument_required_join smoke3 arM3 rfl

/-- C5: a successful classification preserves the input's shape — a string
input is replaced by the new formatted string, and an exception-like input
comes back with its message attribute set to the formatted message, its
first positional argument replaced by it with the remaining arguments
kept, and every other field untouched — and in both cases the last-error
record is written. -/
theorem C5_shape_preserved (st : HandlerState) (input : ErrInput)
    (k : AzCliErrorType) (m : MatchRes) (r : HandlerResult)
    (h : scan input (extractMessage input) registryOrder = .ok (some (k, m, r))) :
    (∀ s, input = .str s →
      classify st input =
        (.ok (.str (ERROR_MSG_FMT (error_type k) (resultParts r).1)),
         some { message := ERROR_MSG_FMT (error_type k) (resultParts r).1,
                overridden_message := s,
                suggested_fix := (resultParts r).2,
                cli_error_type := k,
                metadata := m })) ∧
    (∀ e2, input = .exc e2 →
      classify st input =
        (.ok (.exc { messageAttr := some (ERROR_MSG_FMT (error_type k) (resultParts r).1),
                     strRepr := e2.strRepr,
                     args := ERROR_MSG_FMT (error_type k) (resultParts r).1 :: e2.args.drop 1,
                     invalidValue := e2.invalidValue }),
         some { message := ERROR_MSG_FMT (error_type k) (resultParts r).1,
                overridden_message := extractMessage (.exc e2),
                suggested_fix := (resultParts r).2,
                cli_error_type := k,
                metadata := m })) := by
  constructor
  · rintro s rfl
    simp only [extractMessage] at h
    simp [classify, extractMessage, h]
  · rintro e2 rfl
    simp [classify, h]

/-- Witness for C5 at the smoke-test exception: the exception comes back
with the formatted message installed in `message` and `args`, other fields
preserved. -/
theorem C5_witness :
    classify initState (.exc mainEx) =
      (.ok (.exc { messageAttr :=
                     some (ERROR_MSG_FMT (chars "Character not allowed") (chars "!")),
                   strRepr := mainExMsg,
                   args := [ERROR_MSG_FMT (chars "Character not allowed") (chars "!")],
                   invalidValue := some (chars "sampleUX!!group") }),
       some { message := ERROR_MSG_FMT (chars "Character not allowed") (chars "!"),
              overridden_message := mainExMsg,
              suggested_fix := some sampleFix,
              cli_error_type := .CharacterNotAllowed,
              metadata := cnaM0 }) :=
  (C5_shape_preserved initState (.exc mainEx) .CharacterNotAllowed cnaM0
      (.pairR (chars "!") sampleFix) rfl).2 mainEx rfl

/-- C7: the last-error slot starts out absent, is overwritten by exactly
the record of each successful classification (final message, pre-rewrite
message, optional suggestion, matched kind, match object), and is left
untouched by unmatched inputs, falsy handler results, raised handler
exceptions and type-assertion failures; the query returns the slot. -/
theorem C7_last_error_lifecycle :
    get_last_error initState = none ∧
    ∀ (st : HandlerState) (input : ErrInput),
      (classify st input).2 =
        match input with
        | .other _ => st
        | _ =>
          match scan input (extractMessage input) registryOrder with
          | .ok (some (k, m, r)) =>
            some { message := ERROR_MSG_FMT (error_type k) (resultParts r).1,
                   overridden_message := extractMessage input,
                   suggested_fix := (resultParts r).2,
                   cli_error_type := k,
                   metadata := m }
          | _ => st := by
  refine ⟨rfl, ?_⟩
  intro st input
  cases input with
  | str s =>
    cases hs : scan (.str s) (extractMessage (.str s)) registryOrder with
    | error e => simp [classify, hs]
    | ok o =>
      cases o with
      | none => simp [classify, hs]
      | some t =>
        obtain ⟨k, m, r⟩ := t
        simp [classify, hs]
  | exc e2 =>
    cases hs : scan (.exc e2) (extractMessage (.exc e2)) registryOrder with
    | error e => simp [classify, hs]
    | ok o =>
      cases o with
      | none => simp [classify, hs]
      | some t =>
        obtain ⟨k, m, r⟩ := t
        simp [classify, hs]
  | other t => rfl

/-- C8 counterexample: the quoted resource name of `c8Input` reintroduces
the ArgumentRequired trigger text and a flag token into the formatted
output, which therefore matches a recognition pattern again and is
rewritten once more by a second classification. -/
theorem C8_counterexample :
    (classify initState (.str c8Input)).1 = .ok (.str c8Formatted) ∧
    (reSearch argumentRequiredPattern c8Formatted).isSome = true ∧
    (classify initState (.str c8Formatted)).1 =
      .ok (.str (ERROR_MSG_FMT (error_type .ArgumentRequired) (chars "name"))) ∧
    ERROR_MSG_FMT (error_type .ArgumentRequired) (chars "name") ≠ c8Formatted :=
  ⟨rfl, rfl, rfl, by decide⟩

/-- C8 amended: round-trip safety holds for the module's six smoke-test
string inputs — each formatted output matches none of the five patterns
and a second classification returns it unchanged — though not for every
rewritable input, since handler output interpolates captured text
verbatim. -/
theorem C8_amended_smoke_round_trip (s : List Char)
    (hs : s ∈ [smoke1, smoke2, smoke3, smoke4, smoke5, smoke6]) :
    (classify initState (.str s)).1 = .ok (.str (firstPassStr s)) ∧
    reSearch resourceNotFoundPattern (firstPassStr s) = none ∧
    reSearch characterNotAllowedPattern (firstPassStr s) = none ∧
    reSearch commandNotFoundPattern (firstPassStr s) = none ∧
    reSearch argumentRequiredPattern (firstPassStr s) = none ∧
    reSearch valueRequiredPattern (firstPassStr s) = none ∧
    (classify initState (.str (firstPassStr s))).1 = .ok (.str (firstPassStr s)) := by
  fin_cases hs <;> exact ⟨rfl, rfl, rfl, rfl, rfl, rfl, rfl⟩

/-- Witness for the amended C8 at the first smoke-test message. -/
theorem C8_amended_witness :
    (classify initState (.str smoke1)).1 = .ok (.str (firstPassStr smoke1)) ∧
    reSearch resourceNotFoundPattern (firstPassStr smoke1) = none ∧
    reSearch characterNotAllowedPattern (firstPassStr smoke1) = none ∧
    reSearch commandNotFoundPattern (firstPassStr smoke1) = none ∧
    reSearch argumentRequiredPattern (firstPassStr smoke1) = none ∧
    reSearch valueRequiredPattern (firstPassStr smoke1) = none ∧
    (classify initState (.str (firstPassStr smoke1))).1 =
      .ok (.str (firstPassStr smoke1)) :=
  C8_amended_smoke_round_trip smoke1 (List.mem_cons_self smoke1 _)

/-- C10: when the CharacterNotAllowed pattern matches but the exception
carries no `_invalid_value` (or an empty one), the handler still returns a
pair of empty message and empty suggestion; the pair is truthy, so the
orchestrator stops dispatch at that kind, formats an empty body after the
label, mutates and returns the exception, and records a last error with
the empty suggestion. -/
theorem C10_cna_empty_invalid_value (p : Regex) (param : List Char)
    (st : HandlerState) (e : ExcObj) (m : MatchRes)
    (hiv : e.invalidValue.getD [] = [])
    (hrnf : reSearch resourceNotFoundPattern (extractMessage (.exc e)) = none)
    (hcna : reSearch characterNotAllowedPattern (extractMessage (.exc e)) = some m)
    (hparse : parseRegex (fixupRegexStr (mgroup m 2)) = some p) :
    handleCNACore p param [] =
      ([], mkSuggestedErrorCorrection [] .InvalidArgument (some param)) ∧
    runHandler .CharacterNotAllowed m (.exc e) =
      .ok (.pairR []
        (mkSuggestedErrorCorrection [] .InvalidArgument (some (mgroup m 1)))) ∧
    classify st (.exc e) =
      (.ok (.exc { e with
         messageAttr := some (ERROR_MSG_FMT (chars "Character not allowed") []),
         args := ERROR_MSG_FMT (chars "Character not allowed") [] :: e.args.drop 1 }),
       some { message := ERROR_MSG_FMT (chars "Character not allowed") [],
              overridden_message := extractMessage (.exc e),
              suggested_fix :=
                some (mkSuggestedErrorCorrection [] .InvalidArgument (some (mgroup m 1))),
              cli_error_type := .CharacterNotAllowed,
              metadata := m }) := by
  have hrun : runHandler .CharacterNotAllowed m (.exc e) =
      .ok (.pairR []
        (mkSuggestedErrorCorrection [] .InvalidArgument (some (mgroup m 1)))) := by
    simp [runHandler, handle_character_not_allowed, hiv, hparse, handleCNACore_empty]
  refine ⟨handleCNACore_empty p param, hrun, ?_⟩
  have hscan : scan (.exc e) (extractMessage (.exc e)) registryOrder =
      .ok (some (.CharacterNotAllowed, m, .pairR []
        (mkSuggestedErrorCorrection [] .InvalidArgument (some (mgroup m 1))))) := by
    simp [scan, registryOrder, patternOf, hrnf, hcna, hrun, truthy]
  simp [classify, hscan, error_type, resultParts]

/-- Witness for C10 at an exception lacking `_invalid_value`. -/
theorem C10_witness :
    classify initState (.exc c10Ex) =
      (.ok (.exc { messageAttr :=
                     some (ERROR_MSG_FMT (chars "Character not allowed") []),
                   strRepr := c10Msg,
                   args := [ERROR_MSG_FMT (chars "Character not allowed") []],
                   invalidValue := none }),
       some { message := ERROR_MSG_FMT (chars "Character not allowed") [],
              overridden_message := c10Msg,
              suggested_fix :=
                some (mkSuggestedErrorCorrection [] .InvalidArgument
                  (some (chars "p"))),
              cli_error_type := .CharacterNotAllowed,
              metadata := c10M }) :=
  (C10_cna_empty_invalid_value c10P (chars "p") initState c10Ex c10M
      rfl rfl rfl rfl).2.2
